import Mathlib

/-!
Shallow embedding of `dlg_oskar_components/apps.py`: the two DALiuGE driver
components `OSKARInterferometer` and `OSKARImager`.

The drivers build a nested settings dictionary, hand it to the external OSKAR
library, and (for the imager) render the returned pixel grid to a PNG buffer.
External collaborators (the OSKAR library, the matplotlib renderer, the DALiuGE
drop framework) are modelled as oracles/parameters; the drivers' own logic --
guard checks, dictionary construction, parameter coercion, call sequencing,
and artifact writes -- is embedded faithfully from the source.

Python floats that are merely carried through (never computed with) are
modelled as `Rat`; Python ints as `Int`; settings values as a sum type.
A raised Python exception is modelled as an error value produced before any
further external call is recorded in the trace.
-/

/-- A scalar value stored in an OSKAR settings dictionary: the Python code
puts booleans, ints, floats and strings into the nested dict. -/
inductive SettingValue where
  | vBool : Bool → SettingValue
  | vInt : Int → SettingValue
  | vNum : Rat → SettingValue
  | vStr : String → SettingValue
deriving DecidableEq, Repr

/-- A nested settings dictionary: ordered association list of sections, each a
list of key/value pairs (the Python dict literal, insertion-ordered). -/
abbrev Params := List (String × List (String × SettingValue))

/-- Look up a key in one section's key/value list. -/
def lookupKey (l : List (String × SettingValue)) (k : String) : Option SettingValue :=
  (l.find? (fun kv => kv.1 == k)).map (fun kv => kv.2)

/-- Look up `sec/key` in a nested settings dictionary. -/
def lookupSetting (p : Params) (sec k : String) : Option SettingValue :=
  match p.find? (fun s => s.1 == sec) with
  | some s => lookupKey s.2 k
  | none => none

/-- The ordered list of section names of a settings dictionary. -/
def sectionNames (p : Params) : List String :=
  p.map (fun s => s.1)

/-- The key/value list of one section of a settings dictionary. -/
def sectionOf (p : Params) (sec : String) : Option (List (String × SettingValue)) :=
  (p.find? (fun s => s.1 == sec)).map (fun s => s.2)

/-- A DALiuGE drop as seen by these components: it has a filesystem `path`
and (for the sky-model input, read via `load_npy`) a 2-D numeric array. -/
structure Drop where
  path : String
  data : List (List Rat)
deriving DecidableEq, Repr

/-- Placeholder drop used for indexing after a length guard (never observed:
every access is protected by a length check, as in the Python `inputs[i]`). -/
def defaultDrop : Drop := ⟨"", []⟩

/-- The configuration parameters of `OSKARInterferometer`, with the defaults
declared by its `dlg_*_param` fields. -/
structure InterferometerConfig where
  doubleprecision : Bool := true
  usegpu : Bool := false
  channel_bandwidth_hz : Rat := 0
  time_average_sec : Rat := 0
  force_polarised_ms : Bool := false
  ignore_w_components : Bool := false
deriving DecidableEq, Repr

/-- The nested `params` dictionary built by `OSKARInterferometer.run`
(apps.py lines 104-129), as a function of the configuration, the telescope
input path (`inputs[0].path`) and the visibility output path
(`outputs[0].path`). -/
def interferometerParams (cfg : InterferometerConfig) (telescopePath visPath : String) :
    Params :=
  [ ("simulator",
      [ ("use_gpus", .vBool cfg.usegpu) ]),
    ("observation",
      [ ("num_channels", .vInt 3),
        ("start_frequency_hz", .vNum 100000000),
        ("frequency_inc_hz", .vNum 20000000),
        ("phase_centre_ra_deg", .vInt 20),
        ("phase_centre_dec_deg", .vInt (-30)),
        ("num_time_steps", .vInt 24),
        ("start_time_utc", .vStr "01-01-2000 12:00:00.000"),
        ("length", .vStr "12:00:00.000") ]),
    ("telescope",
      [ ("input_directory", .vStr telescopePath) ]),
    ("interferometer",
      [ ("oskar_vis_filename", .vStr visPath),
        ("ms_filename", .vStr ""),
        ("channel_bandwidth_hz", .vNum cfg.channel_bandwidth_hz),
        ("time_average_sec", .vNum cfg.time_average_sec),
        ("force_polarised_ms", .vBool cfg.force_polarised_ms),
        ("ignore_w_components", .vBool cfg.ignore_w_components) ]) ]

/-- An external-library call made by `OSKARInterferometer.run`, in order:
settings construction from the dict, the precision override on the settings
tree, loading the sky array from a drop, building the sky model with a
precision tag, constructing the simulator, attaching the sky model, and
running the simulation. -/
inductive ExternalCall where
  | settingsFromDict : Params → ExternalCall
  | settingsOverride : String → SettingValue → ExternalCall
  | loadNpy : String → ExternalCall
  | skyFromArray : List (List Rat) → String → ExternalCall
  | interferometerNew : ExternalCall
  | setSkyModel : ExternalCall
  | simRun : ExternalCall
deriving DecidableEq, Repr

/-- The error raised by a driver before reaching the external library.  The
Python code raises a bare `Exception` on a failed port-count guard; the
design-level taxonomy names this `ConfigurationError`, carrying the message. -/
inductive DriverError where
  | ConfigurationError : String → DriverError
deriving DecidableEq, Repr

/-- The observable outcome of one `OSKARInterferometer.run` invocation: the
ordered trace of external calls made, and the error raised (if any). -/
structure InterferometerOutcome where
  calls : List ExternalCall
  err : Option DriverError
deriving DecidableEq, Repr

/-- Shallow embedding of `OSKARInterferometer.run` (apps.py lines 95-153).
Guards: `len(self.outputs) < 1` raises, then `len(self.inputs) < 3` raises;
only then are the settings built and the external calls made. -/
def OSKARInterferometer.run (cfg : InterferometerConfig) (inputs outputs : List Drop) :
    InterferometerOutcome :=
  if outputs.length < 1 then
    ⟨[], some (.ConfigurationError "No where for the visibilities to go")⟩
  else if inputs.length < 3 then
    ⟨[], some (.ConfigurationError "Make sure to connect a skymodel and telescope model")⟩
  else
    let params := interferometerParams cfg (inputs.getD 0 defaultDrop).path
      (outputs.getD 0 defaultDrop).path
    let skyData := (inputs.getD 1 defaultDrop).data
    let prec := if cfg.doubleprecision then "double" else "single"
    ⟨[ .settingsFromDict params,
       .settingsOverride "simulator/double_precision" (.vBool cfg.doubleprecision),
       .loadNpy (inputs.getD 1 defaultDrop).path,
       .skyFromArray skyData prec,
       .interferometerNew,
       .setSkyModel,
       .simRun ], none⟩

/-- The settings dictionary the run handed to `SettingsTree.from_dict`,
read off the call trace. -/
def settingsDictOf (o : InterferometerOutcome) : Option Params :=
  o.calls.findSome? fun c =>
    match c with
    | .settingsFromDict p => some p
    | _ => none

/-- The single-key override applied to the settings tree, read off the trace. -/
def overrideOf (o : InterferometerOutcome) : Option (String × SettingValue) :=
  o.calls.findSome? fun c =>
    match c with
    | .settingsOverride k v => some (k, v)
    | _ => none

/-- The (array, precision tag) pair passed to `oskar.Sky.from_array`,
read off the trace. -/
def skyCallOf (o : InterferometerOutcome) : Option (List (List Rat) × String) :=
  o.calls.findSome? fun c =>
    match c with
    | .skyFromArray d p => some (d, p)
    | _ => none

/-- The configuration parameters of `OSKARImager`, with the defaults declared
by its `dlg_*_param` fields. -/
structure ImagerConfig where
  doubleprecision : Bool := true
  usegpu : Bool := false
  specify_cellsize : Bool := false
  fov_deg : Rat := 2
  cellsize_arcsec : Rat := 1
  size : Int := 256
  image_type : String := "I"
  channel_snapshots : Bool := false
  freq_min_hz : Rat := 0
  freq_max_hz : String := "max"
  time_min_utc : String := "0"
  time_max_utc : String := "0"
  uv_filter_min : Rat := 0
  uv_filter_max : String := "max"
  algorithm : String := "FFT"
  weighting : String := "Natural"
  u_wavelengths : Rat := 0
  v_wavelengths : Rat := 0
deriving DecidableEq, Repr

/-- The single-section `params` dictionary built by `OSKARImager.run`
(apps.py lines 261-283), as a function of the configuration and the
visibility input path (`inputs[0].path`).  The `u_wavelengths` and
`v_wavelengths` entries are commented out in the source and hence absent. -/
def imagerParams (cfg : ImagerConfig) (visPath : String) : Params :=
  [ ("image",
      [ ("double_precision", .vStr (if cfg.doubleprecision then "true" else "false")),
        ("use_gpus", .vStr (if cfg.usegpu then "true" else "false")),
        ("specify_cellsize", .vBool cfg.specify_cellsize),
        ("fov_deg", .vNum cfg.fov_deg),
        ("cellsize_arcsec", .vNum cfg.cellsize_arcsec),
        ("size", .vInt cfg.size),
        ("image_type", .vStr cfg.image_type),
        ("channel_snapshots", .vBool cfg.channel_snapshots),
        ("freq_min_hz", .vNum cfg.freq_min_hz),
        ("freq_max_hz", .vStr cfg.freq_max_hz),
        ("time_min_utc", .vStr cfg.time_min_utc),
        ("time_max_utc", .vStr cfg.time_max_utc),
        ("uv_filter_min", .vNum cfg.uv_filter_min),
        ("uv_filter_max", .vStr cfg.uv_filter_max),
        ("algorithm", .vStr cfg.algorithm),
        ("weighting", .vStr cfg.weighting),
        ("input_vis_data", .vStr visPath) ]) ]

/-- The figure state produced by the matplotlib rendering calls: the pixel
grid given to `imshow`, its color map, whether `invert_yaxis` was applied,
and whether a `colorbar` legend was attached. -/
structure RenderState where
  grid : List (List Rat)
  cmap : String
  yaxisInverted : Bool
  colorbarAttached : Bool
deriving DecidableEq, Repr

/-- The render state built by `OSKARImager.run` for a given pixel grid:
`imshow(image, cmap="jet")`, then `invert_yaxis()`, then `colorbar(im)`. -/
def jetRender (img : List (List Rat)) : RenderState :=
  ⟨img, "jet", true, true⟩

/-- An external-library call made by `OSKARImager.run`: settings construction
from the dict, imager construction, and the imager run with its
`return_images` argument. -/
inductive ImagerCall where
  | settingsFromDict : Params → ImagerCall
  | imagerNew : ImagerCall
  | imagerRunCall : Nat → ImagerCall
deriving DecidableEq, Repr

/-- Recognises the external imager-execution call in a trace. -/
def isImagerRunCall : ImagerCall → Bool
  | .imagerRunCall _ => true
  | _ => false

/-- A Python `IndexError` raised by an out-of-range list/sequence access in
`OSKARImager.run`, tagged with the failing access. -/
inductive ImagerError where
  | indexError : String → ImagerError
deriving DecidableEq, Repr

/-- The observable outcome of one `OSKARImager.run` invocation: the external
calls made, the matplotlib render state reached (if any), the writes performed
on output drops (path, bytes), and the error raised (if any). -/
structure ImagerOutcome where
  calls : List ImagerCall
  rendered : Option RenderState
  written : List (String × List Nat)
  err : Option ImagerError
deriving DecidableEq, Repr

/-- Shallow embedding of `OSKARImager.run` (apps.py lines 256-297).  There is
no port guard: `inputs[0].path` is read while building the dict (an
`IndexError` with no connected input), the settings and imager calls follow
unconditionally, the imager result list is indexed at 0, the grid is rendered
and `savefig`'s buffer (the `enc` oracle applied to the render state) is
written verbatim to `outputs[0]` -- which raises `IndexError` only at that
final step when no output is connected.  `images` is the list returned by the
external `imager.run(return_images=1)["images"]` call. -/
def OSKARImager.run (cfg : ImagerConfig) (inputs outputs : List Drop)
    (images : List (List (List Rat))) (enc : RenderState → List Nat) :
    ImagerOutcome :=
  if inputs.length < 1 then
    ⟨[], none, [], some (.indexError "inputs[0]")⟩
  else
    let params := imagerParams cfg (inputs.getD 0 defaultDrop).path
    let calls : List ImagerCall :=
      [ .settingsFromDict params, .imagerNew, .imagerRunCall 1 ]
    if images.length < 1 then
      ⟨calls, none, [], some (.indexError "images[0]")⟩
    else
      let rs := jetRender (images.getD 0 [])
      let buf := enc rs
      if outputs.length < 1 then
        ⟨calls, some rs, [], some (.indexError "outputs[0]")⟩
      else
        ⟨calls, some rs, [((outputs.getD 0 defaultDrop).path, buf)], none⟩

/-- The settings dictionary the imager run handed to `SettingsTree.from_dict`,
read off the call trace. -/
def imagerDictOf (o : ImagerOutcome) : Option Params :=
  o.calls.findSome? fun c =>
    match c with
    | .settingsFromDict p => some p
    | _ => none

/-- The 8-byte PNG file signature starts with these four bytes. -/
def pngSignature : List Nat := [137, 80, 78, 71]

/-! ### Helper lemmas shared by the claim theorems -/

/-- If two lists agree on their first `n` elements, `getD` agrees below `n`. -/
theorem getD_eq_of_take_eq {α : Type} (d : α) :
    ∀ (n m : Nat) (l1 l2 : List α), l1.take n = l2.take n → m < n →
      l1.getD m d = l2.getD m d := by
  intro n
  induction n with
  | zero => intro m l1 l2 _ hm; omega
  | succ k ih =>
    intro m l1 l2 h hm
    cases l1 with
    | nil =>
      cases l2 with
      | nil => rfl
      | cons b t2 => simp [List.take] at h
    | cons a t1 =>
      cases l2 with
      | nil => simp [List.take] at h
      | cons b t2 =>
        simp [List.take] at h
        obtain ⟨rfl, ht⟩ := h
        cases m with
        | zero => rfl
        | succ j => simpa [List.getD] using ih j t1 t2 ht (by omega)

/-- Normal form of a successful interferometer run: with at least 3 connected
inputs and at least 1 connected output, both guards pass and the full external
call sequence is executed. -/
theorem interferometerRun_eq (cfg : InterferometerConfig) (ins outs : List Drop)
    (h3 : 3 ≤ ins.length) (h1 : 1 ≤ outs.length) :
    OSKARInterferometer.run cfg ins outs =
      ⟨[ .settingsFromDict (interferometerParams cfg (ins.getD 0 defaultDrop).path
            (outs.getD 0 defaultDrop).path),
         .settingsOverride "simulator/double_precision" (.vBool cfg.doubleprecision),
         .loadNpy (ins.getD 1 defaultDrop).path,
         .skyFromArray (ins.getD 1 defaultDrop).data
            (if cfg.doubleprecision then "double" else "single"),
         .interferometerNew,
         .setSkyModel,
         .simRun ], none⟩ := by
  unfold OSKARInterferometer.run
  rw [if_neg (by omega), if_neg (by omega)]

/-! ### Claim theorems -/

/-- C5: with 0 connected outputs, `OSKARInterferometer.run` raises the
configuration error immediately: the external-call trace is empty, so no
settings, sky-model, or simulation call was attempted. -/
theorem C5_no_outputs_guard (cfg : InterferometerConfig) (ins : List Drop) :
    OSKARInterferometer.run cfg ins [] =
      ⟨[], some (.ConfigurationError "No where for the visibilities to go")⟩ := rfl

/-- C6: the imager settings dictionary is unchanged by any values of
`u_wavelengths` and `v_wavelengths`, and contains no entry for either key. -/
theorem C6_dead_parameters (cfg : ImagerConfig) (u v u2 v2 : Rat) (p : String) :
    imagerParams { cfg with u_wavelengths := u, v_wavelengths := v } p =
      imagerParams { cfg with u_wavelengths := u2, v_wavelengths := v2 } p
  ∧ lookupSetting (imagerParams cfg p) "image" "u_wavelengths" = none
  ∧ lookupSetting (imagerParams cfg p) "image" "v_wavelengths" = none :=
  ⟨rfl, rfl, rfl⟩

/-- C1 counterexample: with exactly 2 connected inputs and 1 connected output
(so "at least 2 inputs and at least 1 output" holds), the run still raises a
configuration error, refuting the claim that none is raised: the source guard
is `len(self.inputs) < 3`, not `< 2`. -/
theorem C1_counterexample :
    2 ≤ ([⟨"tel", []⟩, ⟨"sky", []⟩] : List Drop).length
  ∧ 1 ≤ ([⟨"vis", []⟩] : List Drop).length
  ∧ (OSKARInterferometer.run {} [⟨"tel", []⟩, ⟨"sky", []⟩] [⟨"vis", []⟩]).err ≠ none := by
  refine ⟨by decide, by decide, by decide⟩

/-- C1 (amended): with at least 1 connected output and fewer than 3 connected
inputs, `OSKARInterferometer.run` raises `ConfigurationError` with an empty
external-call trace (so before any settings/sky/simulation call); with at
least 3 connected inputs and at least 1 connected output, no configuration
error is raised and the external calls proceed. -/
theorem C1_amended_input_guard (cfg : InterferometerConfig) (ins outs : List Drop) :
    (1 ≤ outs.length → ins.length < 3 →
      OSKARInterferometer.run cfg ins outs =
        ⟨[], some (.ConfigurationError "Make sure to connect a skymodel and telescope model")⟩)
  ∧ (3 ≤ ins.length → 1 ≤ outs.length →
      (OSKARInterferometer.run cfg ins outs).err = none
    ∧ (OSKARInterferometer.run cfg ins outs).calls ≠ []) := by
  constructor
  · intro h1 h3
    unfold OSKARInterferometer.run
    rw [if_neg (by omega), if_pos h3]
  · intro h3 h1
    rw [interferometerRun_eq cfg ins outs h3 h1]
    exact ⟨rfl, by simp⟩

/-- Witness for C1 (amended): 2 inputs and 1 output raise the configuration
error; 3 inputs and 1 output raise none. -/
theorem C1_amended_input_guard_witness :
    OSKARInterferometer.run {} [⟨"tel", []⟩, ⟨"sky", []⟩] [⟨"vis", []⟩] =
      ⟨[], some (.ConfigurationError "Make sure to connect a skymodel and telescope model")⟩
  ∧ (OSKARInterferometer.run {}
      [⟨"tel", []⟩, ⟨"sky", []⟩, ⟨"cfg", []⟩] [⟨"vis", []⟩]).err = none :=
  ⟨(C1_amended_input_guard {} [⟨"tel", []⟩, ⟨"sky", []⟩] [⟨"vis", []⟩]).1
      (by decide) (by decide),
   ((C1_amended_input_guard {} [⟨"tel", []⟩, ⟨"sky", []⟩, ⟨"cfg", []⟩] [⟨"vis", []⟩]).2
      (by decide) (by decide)).1⟩

/-- C10: the interferometer run reads no input beyond `inputs[0]` and
`inputs[1]`: two invocations agreeing on configuration, outputs, and the
first two inputs produce identical outcomes (settings dictionary,
double-precision override, sky data passed on), even though the guard
requires at least 3 connected inputs. -/
theorem C10_unused_extra_inputs (cfg : InterferometerConfig) (ins1 ins2 outs : List Drop)
    (hpre : ins1.take 2 = ins2.take 2) (h1 : 3 ≤ ins1.length) (h2 : 3 ≤ ins2.length) :
    OSKARInterferometer.run cfg ins1 outs = OSKARInterferometer.run cfg ins2 outs := by
  by_cases ho : outs.length < 1
  · unfold OSKARInterferometer.run
    rw [if_pos ho, if_pos ho]
  · rw [interferometerRun_eq cfg ins1 outs h1 (by omega),
        interferometerRun_eq cfg ins2 outs h2 (by omega),
        getD_eq_of_take_eq defaultDrop 2 0 ins1 ins2 hpre (by omega),
        getD_eq_of_take_eq defaultDrop 2 1 ins1 ins2 hpre (by omega)]

/-- Witness for C10: a third input with a different path (and an extra fourth
input) leaves the run outcome unchanged. -/
theorem C10_unused_extra_inputs_witness :
    OSKARInterferometer.run {} [⟨"a", []⟩, ⟨"b", []⟩, ⟨"c", []⟩] [⟨"o", []⟩] =
      OSKARInterferometer.run {} [⟨"a", []⟩, ⟨"b", []⟩, ⟨"d", []⟩, ⟨"e", []⟩] [⟨"o", []⟩] :=
  C10_unused_extra_inputs {} [⟨"a", []⟩, ⟨"b", []⟩, ⟨"c", []⟩]
    [⟨"a", []⟩, ⟨"b", []⟩, ⟨"d", []⟩, ⟨"e", []⟩] [⟨"o", []⟩]
    (by decide) (by decide) (by decide)

/-- The settings dictionary the interferometer run builds, as a function of
the connected ports: telescope path from `inputs[0]`, visibility path from
`outputs[0]`. -/
def interferometerDict (cfg : InterferometerConfig) (ins outs : List Drop) : Params :=
  interferometerParams cfg (ins.getD 0 defaultDrop).path (outs.getD 0 defaultDrop).path

/-- C2: on a guarded-through run, the settings dictionary handed to the
external settings call has exactly the sections simulator / observation /
telescope / interferometer; the configured (or default) values sit under
their keys; the observation section is a fixed constant block independent of
the configuration; `telescope/input_directory` is `inputs[0].path` and
`interferometer/oskar_vis_filename` is `outputs[0].path`. -/
theorem C2_settings_dict (cfg : InterferometerConfig) (ins outs : List Drop)
    (h3 : 3 ≤ ins.length) (h1 : 1 ≤ outs.length) :
    settingsDictOf (OSKARInterferometer.run cfg ins outs) = some (interferometerDict cfg ins outs)
  ∧ sectionNames (interferometerDict cfg ins outs)
      = ["simulator", "observation", "telescope", "interferometer"]
  ∧ lookupSetting (interferometerDict cfg ins outs) "simulator" "use_gpus"
      = some (.vBool cfg.usegpu)
  ∧ lookupSetting (interferometerDict cfg ins outs) "observation" "num_channels"
      = some (.vInt 3)
  ∧ lookupSetting (interferometerDict cfg ins outs) "observation" "start_frequency_hz"
      = some (.vNum 100000000)
  ∧ lookupSetting (interferometerDict cfg ins outs) "observation" "frequency_inc_hz"
      = some (.vNum 20000000)
  ∧ lookupSetting (interferometerDict cfg ins outs) "observation" "phase_centre_ra_deg"
      = some (.vInt 20)
  ∧ lookupSetting (interferometerDict cfg ins outs) "observation" "phase_centre_dec_deg"
      = some (.vInt (-30))
  ∧ lookupSetting (interferometerDict cfg ins outs) "observation" "num_time_steps"
      = some (.vInt 24)
  ∧ lookupSetting (interferometerDict cfg ins outs) "observation" "start_time_utc"
      = some (.vStr "01-01-2000 12:00:00.000")
  ∧ lookupSetting (interferometerDict cfg ins outs) "observation" "length"
      = some (.vStr "12:00:00.000")
  ∧ (∀ cfg2 : InterferometerConfig,
      sectionOf (interferometerDict cfg2 ins outs) "observation"
        = sectionOf (interferometerDict cfg ins outs) "observation")
  ∧ lookupSetting (interferometerDict cfg ins outs) "telescope" "input_directory"
      = some (.vStr (ins.getD 0 defaultDrop).path)
  ∧ lookupSetting (interferometerDict cfg ins outs) "interferometer" "oskar_vis_filename"
      = some (.vStr (outs.getD 0 defaultDrop).path)
  ∧ lookupSetting (interferometerDict cfg ins outs) "interferometer" "channel_bandwidth_hz"
      = some (.vNum cfg.channel_bandwidth_hz)
  ∧ lookupSetting (interferometerDict cfg ins outs) "interferometer" "time_average_sec"
      = some (.vNum cfg.time_average_sec)
  ∧ lookupSetting (interferometerDict cfg ins outs) "interferometer" "force_polarised_ms"
      = some (.vBool cfg.force_polarised_ms)
  ∧ lookupSetting (interferometerDict cfg ins outs) "interferometer" "ignore_w_components"
      = some (.vBool cfg.ignore_w_components) := by
  refine ⟨?_, rfl, rfl, rfl, rfl, rfl, rfl, rfl, rfl, rfl, rfl,
    fun cfg2 => rfl, rfl, rfl, rfl, rfl, rfl, rfl⟩
  rw [interferometerRun_eq cfg ins outs h3 h1]
  rfl

/-- Witness for C2: a non-default configuration at concrete ports, with the
recorded dictionary and two representative lookups evaluated. -/
theorem C2_settings_dict_witness :
    settingsDictOf (OSKARInterferometer.run
        ⟨false, true, 5, 7, true, true⟩
        [⟨"/t", []⟩, ⟨"/s", [[20, -30, 1]]⟩, ⟨"/c", []⟩] [⟨"/v", []⟩])
      = some (interferometerDict ⟨false, true, 5, 7, true, true⟩
        [⟨"/t", []⟩, ⟨"/s", [[20, -30, 1]]⟩, ⟨"/c", []⟩] [⟨"/v", []⟩])
  ∧ lookupSetting (interferometerDict ⟨false, true, 5, 7, true, true⟩
        [⟨"/t", []⟩, ⟨"/s", [[20, -30, 1]]⟩, ⟨"/c", []⟩] [⟨"/v", []⟩])
        "telescope" "input_directory" = some (.vStr "/t")
  ∧ lookupSetting (interferometerDict ⟨false, true, 5, 7, true, true⟩
        [⟨"/t", []⟩, ⟨"/s", [[20, -30, 1]]⟩, ⟨"/c", []⟩] [⟨"/v", []⟩])
        "interferometer" "channel_bandwidth_hz" = some (.vNum 5) :=
  ⟨(C2_settings_dict ⟨false, true, 5, 7, true, true⟩
      [⟨"/t", []⟩, ⟨"/s", [[20, -30, 1]]⟩, ⟨"/c", []⟩] [⟨"/v", []⟩]
      (by decide) (by decide)).1,
   (C2_settings_dict ⟨false, true, 5, 7, true, true⟩
      [⟨"/t", []⟩, ⟨"/s", [[20, -30, 1]]⟩, ⟨"/c", []⟩] [⟨"/v", []⟩]
      (by decide) (by decide)).2.2.2.2.2.2.2.2.2.2.2.2.1,
   (C2_settings_dict ⟨false, true, 5, 7, true, true⟩
      [⟨"/t", []⟩, ⟨"/s", [[20, -30, 1]]⟩, ⟨"/c", []⟩] [⟨"/v", []⟩]
      (by decide) (by decide)).2.2.2.2.2.2.2.2.2.2.2.2.2.2.1⟩

/-- With at least one connected input, the imager makes its three external
calls (settings construction, imager construction, one run requesting one
image) whatever the images returned and however many outputs are connected. -/
theorem imagerRun_calls_eq (cfg : ImagerConfig) (ins outs : List Drop)
    (images : List (List (List Rat))) (enc : RenderState → List Nat)
    (hi : 1 ≤ ins.length) :
    (OSKARImager.run cfg ins outs images enc).calls =
      [ .settingsFromDict (imagerParams cfg (ins.getD 0 defaultDrop).path),
        .imagerNew, .imagerRunCall 1 ] := by
  unfold OSKARImager.run
  rw [if_neg (by omega)]
  dsimp only
  split
  · rfl
  split <;> rfl

/-- Normal form of a successful imager run: at least one input and one output
connected and a non-empty returned image list. -/
theorem imagerRun_eq (cfg : ImagerConfig) (ins outs : List Drop)
    (img : List (List Rat)) (rest : List (List (List Rat))) (enc : RenderState → List Nat)
    (hi : 1 ≤ ins.length) (ho : 1 ≤ outs.length) :
    OSKARImager.run cfg ins outs (img :: rest) enc =
      ⟨[ .settingsFromDict (imagerParams cfg (ins.getD 0 defaultDrop).path),
         .imagerNew, .imagerRunCall 1 ],
       some (jetRender img),
       [((outs.getD 0 defaultDrop).path, enc (jetRender img))],
       none⟩ := by
  unfold OSKARImager.run
  rw [if_neg (by omega)]
  dsimp only
  rw [if_neg (by simp), if_neg (by omega)]
  rfl

/-- Normal form of an imager run with no connected output: the external calls
and the rendering all happen, nothing is written, and the `IndexError`
surfaces only at the final `outputs[0].write`. -/
theorem imagerRun_eq_no_output (cfg : ImagerConfig) (ins : List Drop)
    (img : List (List Rat)) (rest : List (List (List Rat))) (enc : RenderState → List Nat)
    (hi : 1 ≤ ins.length) :
    OSKARImager.run cfg ins [] (img :: rest) enc =
      ⟨[ .settingsFromDict (imagerParams cfg (ins.getD 0 defaultDrop).path),
         .imagerNew, .imagerRunCall 1 ],
       some (jetRender img),
       [],
       some (.indexError "outputs[0]")⟩ := by
  unfold OSKARImager.run
  rw [if_neg (by omega)]
  dsimp only
  rw [if_neg (by simp), if_pos (by decide)]
  rfl

/-- C3: the imager coerces `doubleprecision` and `usegpu` to the literal
strings "true"/"false" under `image/double_precision` and `image/use_gpus` in
the dictionary it hands to the settings call, whereas the interferometer
passes native booleans: `simulator/use_gpus` holds a boolean in its
dictionary and the `simulator/double_precision` override is a boolean. -/
theorem C3_coercion_asymmetry (icfg : ImagerConfig) (scfg : InterferometerConfig)
    (iins iouts : List Drop) (images : List (List (List Rat))) (enc : RenderState → List Nat)
    (ins outs : List Drop)
    (hii : 1 ≤ iins.length) (h3 : 3 ≤ ins.length) (h1 : 1 ≤ outs.length) :
    imagerDictOf (OSKARImager.run icfg iins iouts images enc)
      = some (imagerParams icfg (iins.getD 0 defaultDrop).path)
  ∧ lookupSetting (imagerParams icfg (iins.getD 0 defaultDrop).path) "image" "double_precision"
      = some (.vStr (if icfg.doubleprecision then "true" else "false"))
  ∧ lookupSetting (imagerParams icfg (iins.getD 0 defaultDrop).path) "image" "use_gpus"
      = some (.vStr (if icfg.usegpu then "true" else "false"))
  ∧ lookupSetting (interferometerDict scfg ins outs) "simulator" "use_gpus"
      = some (.vBool scfg.usegpu)
  ∧ overrideOf (OSKARInterferometer.run scfg ins outs)
      = some ("simulator/double_precision", .vBool scfg.doubleprecision) := by
  refine ⟨?_, rfl, rfl, rfl, ?_⟩
  · unfold imagerDictOf
    rw [imagerRun_calls_eq icfg iins iouts images enc hii]
    rfl
  · rw [interferometerRun_eq scfg ins outs h3 h1]
    rfl

/-- Witness for C3: concrete runs of both drivers with `doubleprecision :=
false`, `usegpu := true`, showing the string coercion on the imager side and
the boolean values on the interferometer side. -/
theorem C3_coercion_asymmetry_witness :
    lookupSetting (imagerParams { doubleprecision := false, usegpu := true }
        (([⟨"/vis", []⟩] : List Drop).getD 0 defaultDrop).path) "image" "double_precision"
      = some (.vStr "false")
  ∧ lookupSetting (imagerParams { doubleprecision := false, usegpu := true }
        (([⟨"/vis", []⟩] : List Drop).getD 0 defaultDrop).path) "image" "use_gpus"
      = some (.vStr "true")
  ∧ overrideOf (OSKARInterferometer.run { doubleprecision := false, usegpu := true }
        [⟨"/t", []⟩, ⟨"/s", []⟩, ⟨"/c", []⟩] [⟨"/v", []⟩])
      = some ("simulator/double_precision", .vBool false) :=
  ⟨(C3_coercion_asymmetry { doubleprecision := false, usegpu := true }
      { doubleprecision := false, usegpu := true } [⟨"/vis", []⟩] [] [] (fun _ => [])
      [⟨"/t", []⟩, ⟨"/s", []⟩, ⟨"/c", []⟩] [⟨"/v", []⟩]
      (by decide) (by decide) (by decide)).2.1,
   (C3_coercion_asymmetry { doubleprecision := false, usegpu := true }
      { doubleprecision := false, usegpu := true } [⟨"/vis", []⟩] [] [] (fun _ => [])
      [⟨"/t", []⟩, ⟨"/s", []⟩, ⟨"/c", []⟩] [⟨"/v", []⟩]
      (by decide) (by decide) (by decide)).2.2.1,
   (C3_coercion_asymmetry { doubleprecision := false, usegpu := true }
      { doubleprecision := false, usegpu := true } [⟨"/vis", []⟩] [] [] (fun _ => [])
      [⟨"/t", []⟩, ⟨"/s", []⟩, ⟨"/c", []⟩] [⟨"/v", []⟩]
      (by decide) (by decide) (by decide)).2.2.2.2⟩

/-- C4: the single `doubleprecision` flag is applied consistently: the
settings override `simulator/double_precision` equals the flag, the sky-model
precision tag is "double" exactly when the flag is true and "single" when
false, and toggling the flag leaves the settings dictionary and the sky data
passed to the sky-construction call unchanged. -/
theorem C4_precision_consistency (cfg : InterferometerConfig) (b : Bool)
    (ins outs : List Drop) (h3 : 3 ≤ ins.length) (h1 : 1 ≤ outs.length) :
    overrideOf (OSKARInterferometer.run { cfg with doubleprecision := b } ins outs)
      = some ("simulator/double_precision", .vBool b)
  ∧ (skyCallOf (OSKARInterferometer.run { cfg with doubleprecision := b } ins outs)).map Prod.snd
      = some (if b then "double" else "single")
  ∧ settingsDictOf (OSKARInterferometer.run { cfg with doubleprecision := b } ins outs)
      = settingsDictOf (OSKARInterferometer.run cfg ins outs)
  ∧ (skyCallOf (OSKARInterferometer.run { cfg with doubleprecision := b } ins outs)).map Prod.fst
      = (skyCallOf (OSKARInterferometer.run cfg ins outs)).map Prod.fst := by
  rw [interferometerRun_eq { cfg with doubleprecision := b } ins outs h3 h1,
    interferometerRun_eq cfg ins outs h3 h1]
  exact ⟨rfl, rfl, rfl, rfl⟩

/-- Witness for C4: toggling the default `doubleprecision := true` to `false`
at concrete ports yields the `false` override and the "single" tag, with the
settings dictionary unchanged. -/
theorem C4_precision_consistency_witness :
    overrideOf (OSKARInterferometer.run { ({} : InterferometerConfig) with doubleprecision := false }
        [⟨"/t", []⟩, ⟨"/s", [[20, -30, 1]]⟩, ⟨"/c", []⟩] [⟨"/v", []⟩])
      = some ("simulator/double_precision", .vBool false)
  ∧ (skyCallOf (OSKARInterferometer.run { ({} : InterferometerConfig) with doubleprecision := false }
        [⟨"/t", []⟩, ⟨"/s", [[20, -30, 1]]⟩, ⟨"/c", []⟩] [⟨"/v", []⟩])).map Prod.snd
      = some "single"
  ∧ settingsDictOf (OSKARInterferometer.run { ({} : InterferometerConfig) with doubleprecision := false }
        [⟨"/t", []⟩, ⟨"/s", [[20, -30, 1]]⟩, ⟨"/c", []⟩] [⟨"/v", []⟩])
      = settingsDictOf (OSKARInterferometer.run {}
        [⟨"/t", []⟩, ⟨"/s", [[20, -30, 1]]⟩, ⟨"/c", []⟩] [⟨"/v", []⟩]) :=
  ⟨(C4_precision_consistency {} false
      [⟨"/t", []⟩, ⟨"/s", [[20, -30, 1]]⟩, ⟨"/c", []⟩] [⟨"/v", []⟩]
      (by decide) (by decide)).1,
   (C4_precision_consistency {} false
      [⟨"/t", []⟩, ⟨"/s", [[20, -30, 1]]⟩, ⟨"/c", []⟩] [⟨"/v", []⟩]
      (by decide) (by decide)).2.1,
   (C4_precision_consistency {} false
      [⟨"/t", []⟩, ⟨"/s", [[20, -30, 1]]⟩, ⟨"/c", []⟩] [⟨"/v", []⟩]
      (by decide) (by decide)).2.2.1⟩

/-- C7: the imager settings dictionary maps `image/input_vis_data` to
`inputs[0].path`; the dictionary handed to the settings call is exactly that
dictionary; the external imager is executed exactly once, requesting exactly
one returned image; and the pixel grid handed to the renderer is the first
element of the returned image list. -/
theorem C7_imager_invocation (cfg : ImagerConfig) (ins outs : List Drop)
    (img : List (List Rat)) (rest : List (List (List Rat))) (enc : RenderState → List Nat)
    (hi : 1 ≤ ins.length) :
    lookupSetting (imagerParams cfg (ins.getD 0 defaultDrop).path) "image" "input_vis_data"
      = some (.vStr (ins.getD 0 defaultDrop).path)
  ∧ imagerDictOf (OSKARImager.run cfg ins outs (img :: rest) enc)
      = some (imagerParams cfg (ins.getD 0 defaultDrop).path)
  ∧ (OSKARImager.run cfg ins outs (img :: rest) enc).calls.filter isImagerRunCall
      = [.imagerRunCall 1]
  ∧ ((OSKARImager.run cfg ins outs (img :: rest) enc).rendered).map RenderState.grid
      = some img := by
  have hc := imagerRun_calls_eq cfg ins outs (img :: rest) enc hi
  refine ⟨rfl, ?_, ?_, ?_⟩
  · unfold imagerDictOf
    rw [hc]
    rfl
  · rw [hc]
    rfl
  · unfold OSKARImager.run
    rw [if_neg (by omega)]
    dsimp only
    rw [if_neg (by simp)]
    split <;> rfl

/-- Witness for C7: a concrete imager run on the 2x2 grid [[0,1],[2,3]],
showing the single external execution request and the rendered grid. -/
theorem C7_imager_invocation_witness :
    (OSKARImager.run {} [⟨"/vis", []⟩] [⟨"/png", []⟩] [[[0, 1], [2, 3]]]
        (fun _ => [])).calls.filter isImagerRunCall = [.imagerRunCall 1]
  ∧ ((OSKARImager.run {} [⟨"/vis", []⟩] [⟨"/png", []⟩] [[[0, 1], [2, 3]]]
        (fun _ => [])).rendered).map RenderState.grid = some [[0, 1], [2, 3]] :=
  ⟨(C7_imager_invocation {} [⟨"/vis", []⟩] [⟨"/png", []⟩] [[0, 1], [2, 3]] []
      (fun _ => []) (by decide)).2.2.1,
   (C7_imager_invocation {} [⟨"/vis", []⟩] [⟨"/png", []⟩] [[0, 1], [2, 3]] []
      (fun _ => []) (by decide)).2.2.2⟩

/-- C8: when the external imaging call returns a pixel grid, the run renders
it with the fixed "jet" color map, the vertical axis inverted and a colorbar
legend attached, and writes the rasterized buffer verbatim to `outputs[0]`;
if that buffer is a PNG (non-empty, starting with the signature bytes
137 80 78 71), so is the written artifact. -/
theorem C8_png_output (cfg : ImagerConfig) (ins outs : List Drop)
    (img : List (List Rat)) (rest : List (List (List Rat))) (enc : RenderState → List Nat)
    (hi : 1 ≤ ins.length) (ho : 1 ≤ outs.length)
    (hne : enc (jetRender img) ≠ [])
    (hsig : (enc (jetRender img)).take 4 = pngSignature) :
    (OSKARImager.run cfg ins outs (img :: rest) enc).written
      = [((outs.getD 0 defaultDrop).path, enc (jetRender img))]
  ∧ (OSKARImager.run cfg ins outs (img :: rest) enc).rendered = some (jetRender img)
  ∧ ∀ w ∈ (OSKARImager.run cfg ins outs (img :: rest) enc).written,
      w.2 ≠ [] ∧ w.2.take 4 = pngSignature := by
  rw [imagerRun_eq cfg ins outs img rest enc hi ho]
  refine ⟨rfl, rfl, ?_⟩
  intro w hw
  simp only [List.mem_singleton] at hw
  subst hw
  exact ⟨hne, hsig⟩

/-- Witness for C8: on the grid [[0,1],[2,3]] with a PNG-producing rasterizer
oracle, the written artifact is the non-empty buffer with the PNG signature. -/
theorem C8_png_output_witness :
    (OSKARImager.run {} [⟨"/vis", []⟩] [⟨"/png", []⟩] [[[0, 1], [2, 3]]]
        (fun _ => [137, 80, 78, 71, 13, 10, 26, 10])).written
      = [("/png", [137, 80, 78, 71, 13, 10, 26, 10])]
  ∧ ∀ w ∈ (OSKARImager.run {} [⟨"/vis", []⟩] [⟨"/png", []⟩] [[[0, 1], [2, 3]]]
        (fun _ => [137, 80, 78, 71, 13, 10, 26, 10])).written,
      w.2 ≠ [] ∧ w.2.take 4 = pngSignature :=
  ⟨(C8_png_output {} [⟨"/vis", []⟩] [⟨"/png", []⟩] [[0, 1], [2, 3]] []
      (fun _ => [137, 80, 78, 71, 13, 10, 26, 10])
      (by decide) (by decide) (by decide) (by decide)).1,
   (C8_png_output {} [⟨"/vis", []⟩] [⟨"/png", []⟩] [[0, 1], [2, 3]] []
      (fun _ => [137, 80, 78, 71, 13, 10, 26, 10])
      (by decide) (by decide) (by decide) (by decide)).2.2⟩

/-- C9: the imager validates no ports: the external settings construction and
imaging call happen whatever the number of connected outputs; with 0 connected
outputs the run still makes all external calls and renders, writes nothing,
and fails only at the final `outputs[0]` write with an `IndexError`; and with
0 connected inputs the failure is likewise an unguarded `IndexError` at
`inputs[0]`, not a configuration check. -/
theorem C9_no_port_validation (cfg : ImagerConfig) (ins : List Drop)
    (img : List (List Rat)) (rest : List (List (List Rat))) (enc : RenderState → List Nat)
    (hi : 1 ≤ ins.length) :
    (∀ outs : List Drop, (OSKARImager.run cfg ins outs (img :: rest) enc).calls =
      [ .settingsFromDict (imagerParams cfg (ins.getD 0 defaultDrop).path),
        .imagerNew, .imagerRunCall 1 ])
  ∧ OSKARImager.run cfg ins [] (img :: rest) enc =
      ⟨[ .settingsFromDict (imagerParams cfg (ins.getD 0 defaultDrop).path),
         .imagerNew, .imagerRunCall 1 ],
       some (jetRender img), [], some (.indexError "outputs[0]")⟩
  ∧ OSKARImager.run cfg [] [] (img :: rest) enc =
      ⟨[], none, [], some (.indexError "inputs[0]")⟩ :=
  ⟨fun outs => imagerRun_calls_eq cfg ins outs (img :: rest) enc hi,
   imagerRun_eq_no_output cfg ins img rest enc hi,
   rfl⟩

/-- Witness for C9: a concrete imager run with no connected output makes all
three external calls, renders, and ends in the index error at the write. -/
theorem C9_no_port_validation_witness :
    OSKARImager.run {} [⟨"/vis", []⟩] [] [[[0, 1], [2, 3]]] (fun _ => []) =
      ⟨[ .settingsFromDict (imagerParams {} "/vis"), .imagerNew, .imagerRunCall 1 ],
       some (jetRender [[0, 1], [2, 3]]), [], some (.indexError "outputs[0]")⟩ :=
  (C9_no_port_validation {} [⟨"/vis", []⟩] [[0, 1], [2, 3]] [] (fun _ => [])
    (by decide)).2.1
